import Mathlib

/-!
Verification of the PCF85263 RTC driver (drivers/timers/pcf85263.c):
the BCD codec (rtc_bin2bcd / rtc_bcd2bin) and the session operations
up_rtc_getdatetime / up_rtc_settime with their rollover-retry protocols,
shallowly embedded over an explicit transport (a list of I2C transaction
outcomes) and explicit state passing for the output `struct tm`.
-/

/-! ## Register addresses and field masks

Modelled from the spec: these constants come from the chip register header
(drivers/timers/pcf85263.h), which is not among the sampled sources.  Spec
section 6 gives the layout: hundredths-of-seconds, seconds, minutes, hours,
day-of-month, day-of-week, month, year, contiguous from a base offset, each
BCD-packed with field-specific mask bits stripping the non-value flag bits. -/

def PCF85263_RTC_100TH_SECONDS : Nat := 0x00

def PCF85263_RTC_SECONDS : Nat := 0x01

def PCF85263_RTC_SECONDS_MASK : Nat := 0x7f

def PCF85263_RTC_MINUTES_MASK : Nat := 0x7f

def PCF85263_RTC_HOURS24_MASK : Nat := 0x3f

def PCF85263_RTC_DAYS_MASK : Nat := 0x3f

def PCF85263_RTC_WEEKDAYS_MASK : Nat := 0x07

def PCF85263_RTC_MONTHS_MASK : Nat := 0x1f

/-- Modelled from the spec: the NotReady (retry-later) errno value `EAGAIN`
(the errno header is not among the sampled sources); the driver returns its
negation `-EAGAIN`. -/
def EAGAIN : Int := 11

/-! ## BCD codec (rtc_bin2bcd / rtc_bcd2bin) -/

/-- The `while (value >= 10) { msbcd++; value -= 10; }` loop of
`rtc_bin2bcd`.  `msbcd` is a C `uint8_t`, hence the mod-256 wrap on the
increment.  The first argument is fuel making the recursion structural;
`value.toNat` steps always suffice since each iteration decreases `value`
by 10. -/
def bin2bcdLoop : Nat → Nat → Int → Nat × Int
  | 0, msbcd, value => (msbcd, value)
  | fuel + 1, msbcd, value =>
      if 10 ≤ value then bin2bcdLoop fuel ((msbcd + 1) % 256) (value - 10)
      else (msbcd, value)

/-- `rtc_bin2bcd(int value)`: repeated subtraction of 10 counting tens, tens
packed into the high nibble, remainder into the low nibble; the `int`
expression `(msbcd << 4) | value` is converted to the `uint8_t` return type,
keeping only its low byte.  The low byte of a bitwise OR is the OR of the
low bytes of the operands, and `Int.emod 256` is the low byte of a
two's-complement `int`, so the conversion is taken on each operand first. -/
def rtc_bin2bcd (value : Int) : Nat :=
  let r := bin2bcdLoop value.toNat 0 value
  Nat.lor ((r.1 <<< 4) % 256) (r.2.emod 256).toNat

/-- `rtc_bcd2bin(uint8_t value)`: `((int)value >> 4) * 10 + (value & 0x0f)`. -/
def rtc_bcd2bin (value : Nat) : Int :=
  ((value >>> 4) * 10 + (value &&& 0x0f) : Nat)

/-! ## Broken-down time and timespec -/

/-- The fields of `struct tm` used by the driver (C `int` fields). -/
structure Tm where
  tm_sec : Int
  tm_min : Int
  tm_hour : Int
  tm_mday : Int
  tm_mon : Int
  tm_year : Int
  tm_wday : Int
deriving Repr, DecidableEq

/-- `struct timespec`: seconds and nanoseconds. -/
structure Timespec where
  tv_sec : Int
  tv_nsec : Int
deriving Repr, DecidableEq

/-! ## Transport model

`I2C_TRANSFER` is an injected capability; the transport is modelled as a
list of per-call outcomes consumed one per `I2C_TRANSFER` invocation.  An
outcome is either an error status (the negative value the transfer
returned) or the bytes the read messages deposited. -/

/-- Bytes deposited by the four-message read transaction of
`up_rtc_getdatetime`: `b0..b6` are the 7-byte bulk read starting at the
seconds register (seconds, minutes, hours, day-of-month, day-of-week,
month, year) and `sec` is the single-byte seconds re-read. -/
structure RdResp where
  b0 : Nat
  b1 : Nat
  b2 : Nat
  b3 : Nat
  b4 : Nat
  b5 : Nat
  b6 : Nat
  sec : Nat
deriving Repr, DecidableEq

/-- One `I2C_TRANSFER` outcome for the read transaction. -/
inductive RdXfer where
  | ok (r : RdResp)
  | err (e : Int)
deriving Repr, DecidableEq

/-- One `I2C_TRANSFER` outcome for the write transaction of
`up_rtc_settime`: on success, `sec` is the seconds byte read back. -/
inductive SetXfer where
  | ok (sec : Nat)
  | err (e : Int)
deriving Repr, DecidableEq

/-! ## up_rtc_getdatetime -/

/-- The `do { ret = I2C_TRANSFER(...); if (ret < 0) return ret; } while
((buffer[0] & PCF85263_RTC_SECONDS_MASK) > (seconds &
PCF85263_RTC_SECONDS_MASK));` loop of `up_rtc_getdatetime`, consuming one
transport outcome per iteration.  Returns the accepted response together
with the number of `I2C_TRANSFER` calls made, the propagated error, or
`none` when the transport list is exhausted before the loop exits. -/
def getdatetimeLoop : List RdXfer → Option (Except Int (RdResp × Nat))
  | [] => none
  | RdXfer.err e :: _ => some (Except.error e)
  | RdXfer.ok r :: rest =>
      if (r.b0 &&& PCF85263_RTC_SECONDS_MASK) > (r.sec &&& PCF85263_RTC_SECONDS_MASK) then
        match getdatetimeLoop rest with
        | none => none
        | some (Except.error e) => some (Except.error e)
        | some (Except.ok (r2, n)) => some (Except.ok (r2, n + 1))
      else
        some (Except.ok (r, 1))

/-- The field decoding of `up_rtc_getdatetime` (lines 348-379): each field
is masked and BCD-decoded exactly as in the source (note the weekday byte
is decoded first and masked after, and the year byte is not masked).
`hasWday` models `CONFIG_LIBC_LOCALTIME || CONFIG_TIME_EXTENDED`; when it
is false, `tp->tm_wday` is left untouched. -/
def decodeTm (hasWday : Bool) (tp : Tm) (r : RdResp) : Tm :=
  { tm_sec := rtc_bcd2bin (r.b0 &&& PCF85263_RTC_SECONDS_MASK)
    tm_min := rtc_bcd2bin (r.b1 &&& PCF85263_RTC_MINUTES_MASK)
    tm_hour := rtc_bcd2bin (r.b2 &&& PCF85263_RTC_HOURS24_MASK)
    tm_mday := rtc_bcd2bin (r.b3 &&& PCF85263_RTC_DAYS_MASK)
    tm_wday := if hasWday then Int.land (rtc_bcd2bin r.b4) (PCF85263_RTC_WEEKDAYS_MASK : Nat)
               else tp.tm_wday
    tm_mon := rtc_bcd2bin (r.b5 &&& PCF85263_RTC_MONTHS_MASK) - 1
    tm_year := rtc_bcd2bin r.b6 + 68 }

/-- The epoch fallback of `up_rtc_getdatetime` when `!g_rtc_enabled`:
12:00 am, Jan 1, 1970 (a Thursday when the weekday field is compiled in). -/
def epochTm (hasWday : Bool) (tp : Tm) : Tm :=
  { tm_sec := 0
    tm_min := 0
    tm_hour := 0
    tm_wday := if hasWday then 4 else tp.tm_wday
    tm_mday := 1
    tm_mon := 0
    tm_year := 70 }

/-- `up_rtc_getdatetime(struct tm *tp)`.  `enabled` is `g_rtc_enabled`,
`transport` supplies the `I2C_TRANSFER` outcomes, and `tp` is the caller's
structure, passed explicitly so that what the function leaves in it is part
of the result: the return value is `(status, final contents of *tp)`, or
`none` when the transport list runs out inside the retry loop. -/
def up_rtc_getdatetime (enabled hasWday : Bool) (transport : List RdXfer) (tp : Tm) :
    Option (Int × Tm) :=
  if !enabled then
    some (-EAGAIN, epochTm hasWday tp)
  else
    match getdatetimeLoop transport with
    | none => none
    | some (Except.error e) => some (e, tp)
    | some (Except.ok (r, _)) => some (0, decodeTm hasWday tp r)

/-! ## Calendar conversion (gmtime_r)

Modelled from the spec: `up_rtc_settime` converts the rounded `time_t`
to broken-down time with `gmtime_r` (or `localtime_r`), which lives in the
C library, not in the sampled sources.  Spec section 4.2 asks only for the
standard conversion of seconds-since-epoch to the conventional calendar
fields (month zero-based, year as offset from 1900), embodied below by the
standard civil-from-days algorithm. -/

/-- Civil calendar date (year, month 1-12, day 1-31) of a day count
relative to 1970-01-01. -/
def civilFromDays (days : Int) : Int × Int × Int :=
  let z := days + 719468
  let era := Int.fdiv z 146097
  let doe := z - era * 146097
  let yoe := Int.fdiv (doe - Int.fdiv doe 1460 + Int.fdiv doe 36524 - Int.fdiv doe 146096) 365
  let y := yoe + era * 400
  let doy := doe - (365 * yoe + Int.fdiv yoe 4 - Int.fdiv yoe 100)
  let mp := Int.fdiv (5 * doy + 2) 153
  let d := doy - Int.fdiv (153 * mp + 2) 5 + 1
  let m := if mp < 10 then mp + 3 else mp - 9
  (if m ≤ 2 then y + 1 else y, m, d)

/-- Modelled from the spec: `gmtime_r` as broken-down UTC time of a
seconds-since-epoch count (1970-01-01 was a Thursday, weekday 4). -/
def gmtimeModel (t : Int) : Tm :=
  let days := Int.fdiv t 86400
  let rem := Int.emod t 86400
  let c := civilFromDays days
  { tm_sec := Int.emod rem 60
    tm_min := Int.emod (Int.fdiv rem 60) 60
    tm_hour := Int.fdiv rem 3600
    tm_mday := c.2.2
    tm_mon := c.2.1 - 1
    tm_year := c.1 - 1900
    tm_wday := Int.emod (days + 4) 7 }

/-! ## up_rtc_settime -/

/-- The rounding of `up_rtc_settime`: `newtime = tp->tv_sec; if
(tp->tv_nsec >= 500000000) newtime++;`. -/
def roundTime (ts : Timespec) : Int :=
  if 500000000 ≤ ts.tv_nsec then ts.tv_sec + 1 else ts.tv_sec

/-- The 9-byte I2C write buffer of `up_rtc_settime` (lines 450-494):
`buffer[0]` is the register address `PCF85263_RTC_100TH_SECONDS`,
`buffer[1] = 0` clears the hundredths of seconds, and `buffer[2..8]` are
the BCD-encoded time fields. -/
def mkWriteImage (hasWday : Bool) (newtm : Tm) : List Nat :=
  [PCF85263_RTC_100TH_SECONDS,
   0,
   rtc_bin2bcd newtm.tm_sec,
   rtc_bin2bcd newtm.tm_min,
   rtc_bin2bcd newtm.tm_hour,
   rtc_bin2bcd newtm.tm_mday,
   if hasWday then rtc_bin2bcd newtm.tm_wday else 0,
   rtc_bin2bcd (newtm.tm_mon + 1),
   rtc_bin2bcd (newtm.tm_year - 68)]

/-- The `do { ret = I2C_TRANSFER(...); if (ret < 0) return ret; } while
((buffer[2] & PCF85263_RTC_SECONDS_MASK) > (seconds &
PCF85263_RTC_SECONDS_MASK));` loop of `up_rtc_settime`.  `wsec` is the
written seconds byte `buffer[2]`.  Returns the number of `I2C_TRANSFER`
calls on success, the propagated error, or `none` when the transport list
is exhausted before the loop exits. -/
def settimeLoop (wsec : Nat) : List SetXfer → Option (Except Int Nat)
  | [] => none
  | SetXfer.err e :: _ => some (Except.error e)
  | SetXfer.ok s :: rest =>
      if (wsec &&& PCF85263_RTC_SECONDS_MASK) > (s &&& PCF85263_RTC_SECONDS_MASK) then
        match settimeLoop wsec rest with
        | none => none
        | some (Except.error e) => some (Except.error e)
        | some (Except.ok n) => some (Except.ok (n + 1))
      else
        some (Except.ok 1)

/-- `up_rtc_settime(const struct timespec *tp)`: returns the status
(`0` for `OK`, the propagated negative error otherwise), or `none` when the
transport list runs out inside the write-and-verify loop. -/
def up_rtc_settime (enabled hasWday : Bool) (transport : List SetXfer) (ts : Timespec) :
    Option Int :=
  if !enabled then
    some (-EAGAIN)
  else
    let newtm := gmtimeModel (roundTime ts)
    let image := mkWriteImage hasWday newtm
    match settimeLoop (image.getD 2 0) transport with
    | none => none
    | some (Except.error e) => some e
    | some (Except.ok _) => some 0

/-! ## Derived notions used by the claims -/

/-- A packed-BCD byte is valid when each nibble is a decimal digit. -/
def validBCD (b : Nat) : Prop :=
  b < 256 ∧ (b >>> 4) &&& 0x0f ≤ 9 ∧ b &&& 0x0f ≤ 9

instance : DecidablePred validBCD := fun _ => by
  unfold validBCD; infer_instance

/-- What C8 (the spec's reading) would decode the weekday register to:
mask applied to the raw byte before BCD decoding. -/
def specWdayDecode (b : Nat) : Int :=
  rtc_bcd2bin (b &&& PCF85263_RTC_WEEKDAYS_MASK)

/-- The read response an echoing transport produces after `up_rtc_settime`
transmitted `image`: the bulk read starting at the seconds register (chip
offset 1) returns bytes `image[2..8]`, and the seconds re-read returns
`image[2]` again. -/
def echoRead (image : List Nat) : RdResp :=
  { b0 := image.getD 2 0
    b1 := image.getD 3 0
    b2 := image.getD 4 0
    b3 := image.getD 5 0
    b4 := image.getD 6 0
    b5 := image.getD 7 0
    b6 := image.getD 8 0
    sec := image.getD 2 0 }

/-- Concrete bulk response for the rollover race: the bulk read sampled
seconds 59 (BCD `0x59`) and the seconds-only re-read sampled 0. -/
def rollResp : RdResp :=
  { b0 := 0x59, b1 := 0x58, b2 := 0x23, b3 := 0x31, b4 := 0x02, b5 := 0x12, b6 := 0x45
    sec := 0x00 }

/-- Concrete consistent bulk response taken after the rollover: both
seconds samples read 0. -/
def postRollResp : RdResp :=
  { b0 := 0x00, b1 := 0x59, b2 := 0x23, b3 := 0x31, b4 := 0x02, b5 := 0x12, b6 := 0x45
    sec := 0x00 }

/-- Base `struct tm` contents used as the caller's buffer in concrete
scenarios. -/
def baseTm : Tm :=
  { tm_sec := 7, tm_min := 8, tm_hour := 9, tm_mday := 10, tm_mon := 11, tm_year := 12
    tm_wday := 3 }

/-! ## Helper lemmas -/

/-- Decode after encode is the identity on two-digit values. -/
theorem bcd_decode_encode_nat (n : Nat) (h : n < 100) :
    rtc_bcd2bin (rtc_bin2bcd (n : Int)) = (n : Int) := by
  revert n h
  decide

/-- Seconds/minutes mask `0x7f` is transparent on encoded values `< 60`. -/
theorem bcd_mask_sec (n : Nat) (h : n < 60) :
    rtc_bcd2bin (rtc_bin2bcd (n : Int) &&& PCF85263_RTC_SECONDS_MASK) = (n : Int) := by
  revert n h
  decide

/-- Hours/days mask `0x3f` is transparent on encoded values `< 32`. -/
theorem bcd_mask_days (n : Nat) (h : n < 32) :
    rtc_bcd2bin (rtc_bin2bcd (n : Int) &&& PCF85263_RTC_DAYS_MASK) = (n : Int) := by
  revert n h
  decide

/-- Months mask `0x1f` is transparent on encoded values `< 13`. -/
theorem bcd_mask_months (n : Nat) (h : n < 13) :
    rtc_bcd2bin (rtc_bin2bcd (n : Int) &&& PCF85263_RTC_MONTHS_MASK) = (n : Int) := by
  revert n h
  decide

/-- The weekday read path (decode, then mask with 7) undoes the weekday
write path on values `< 7`. -/
theorem bcd_wday_path (n : Nat) (h : n < 7) :
    Int.land (rtc_bcd2bin (rtc_bin2bcd (n : Int))) (PCF85263_RTC_WEEKDAYS_MASK : Nat) = (n : Int) := by
  revert n h
  decide

/-! ## Claims -/

/-- C1: for every integer v in [0,99], decoding the BCD byte produced by
encoding v returns v: `rtc_bcd2bin (rtc_bin2bcd v) = v`. -/
theorem C1_bcd_decode_encode (v : Int) (h0 : 0 ≤ v) (h99 : v ≤ 99) :
    rtc_bcd2bin (rtc_bin2bcd v) = v := by
  have h := bcd_decode_encode_nat v.toNat (by omega)
  rwa [Int.toNat_of_nonneg h0] at h

/-- Witness for C1 at v = 37. -/
theorem C1_bcd_decode_encode_witness :
    (0 : Int) ≤ 37 ∧ (37 : Int) ≤ 99 ∧ rtc_bcd2bin (rtc_bin2bcd 37) = 37 :=
  ⟨by decide, by decide, C1_bcd_decode_encode 37 (by decide) (by decide)⟩

/-- C5: GetTime with the session not enabled performs no bus transaction
(the result is the same for every transport), fills the output with the
fixed Unix epoch values (seconds 0, minutes 0, hours 0, day-of-month 1,
month 0, year-offset 70, and weekday 4 when that field is tracked), and
returns the NotReady status `-EAGAIN`. -/
theorem C5_gettime_not_enabled (h : Bool) (transport : List RdXfer) (tp : Tm) :
    up_rtc_getdatetime false h transport tp =
      some (-EAGAIN,
        { tm_sec := 0, tm_min := 0, tm_hour := 0, tm_mday := 1, tm_mon := 0, tm_year := 70
          tm_wday := if h then 4 else tp.tm_wday }) := rfl

/-- C6: SetTime with the session not enabled returns the NotReady status
`-EAGAIN` and performs no bus transaction (the result is the same for every
transport). -/
theorem C6_settime_not_enabled (h : Bool) (transport : List SetXfer) (ts : Timespec) :
    up_rtc_settime false h transport ts = some (-EAGAIN) := rfl

set_option maxRecDepth 2048 in
/-- C10: for every valid packed-BCD byte b (both nibbles at most 9),
`rtc_bcd2bin b` lies in [0,99] and `rtc_bin2bcd (rtc_bcd2bin b) = b`;
moreover encoding any two-digit value yields a valid packed-BCD byte, so
the two functions are mutually inverse bijections between [0,99] and the
valid packed-BCD bytes. -/
theorem C10_bcd_valid_bijection (b : Nat) (hb : validBCD b) :
    (0 ≤ rtc_bcd2bin b ∧ rtc_bcd2bin b ≤ 99 ∧ rtc_bin2bcd (rtc_bcd2bin b) = b) ∧
    (∀ n : Nat, n < 100 → validBCD (rtc_bin2bcd (n : Int))) := by
  constructor
  · have hall : ∀ n : Nat, n < 256 →
        (validBCD n → (0 ≤ rtc_bcd2bin n ∧ rtc_bcd2bin n ≤ 99 ∧ rtc_bin2bcd (rtc_bcd2bin n) = n)) := by
      decide
    exact hall b hb.1 hb
  · decide

/-- Witness for C10 at b = 0x42. -/
theorem C10_bcd_valid_bijection_witness :
    validBCD 0x42 ∧
    ((0 ≤ rtc_bcd2bin 0x42 ∧ rtc_bcd2bin 0x42 ≤ 99 ∧ rtc_bin2bcd (rtc_bcd2bin 0x42) = 0x42) ∧
     (∀ n : Nat, n < 100 → validBCD (rtc_bin2bcd (n : Int)))) :=
  ⟨by decide, C10_bcd_valid_bijection 0x42 (by decide)⟩

/-- C2: the four-step read transaction of GetTime is repeated exactly when
the masked seconds of the seconds-only re-read is smaller than the masked
seconds of the bulk read; on the transport whose first bulk read sampled
seconds 59 against a re-read of 0, GetTime makes a second `I2C_TRANSFER`
call and returns the time decoded from the second, consistent response,
whose re-read seconds sample is not smaller than its bulk sample. -/
theorem C2_rollover_retry :
    (∀ (r : RdResp) (rest : List RdXfer),
       getdatetimeLoop (RdXfer.ok r :: rest) =
         if (r.b0 &&& PCF85263_RTC_SECONDS_MASK) > (r.sec &&& PCF85263_RTC_SECONDS_MASK) then
           match getdatetimeLoop rest with
           | none => none
           | some (Except.error e) => some (Except.error e)
           | some (Except.ok (r2, n)) => some (Except.ok (r2, n + 1))
         else
           some (Except.ok (r, 1))) ∧
    getdatetimeLoop [RdXfer.ok rollResp, RdXfer.ok postRollResp] =
      some (Except.ok (postRollResp, 2)) ∧
    (∀ (h : Bool) (tp : Tm),
       up_rtc_getdatetime true h [RdXfer.ok rollResp, RdXfer.ok postRollResp] tp =
         some (0, decodeTm h tp postRollResp)) ∧
    postRollResp.b0 &&& PCF85263_RTC_SECONDS_MASK ≤
      postRollResp.sec &&& PCF85263_RTC_SECONDS_MASK :=
  ⟨fun _ _ => rfl, rfl, fun _ _ => rfl, by decide⟩

/-- A read-loop iteration that retries: a failing `I2C_TRANSFER` after any
run of rollover-retried transactions propagates the error. -/
theorem getdatetimeLoop_err (pre : List RdXfer) (e : Int) (rest : List RdXfer)
    (hpre : ∀ x ∈ pre, ∃ r, x = RdXfer.ok r ∧
        (r.b0 &&& PCF85263_RTC_SECONDS_MASK) > (r.sec &&& PCF85263_RTC_SECONDS_MASK)) :
    getdatetimeLoop (pre ++ RdXfer.err e :: rest) = some (Except.error e) := by
  induction pre with
  | nil => rfl
  | cons x xs ih =>
      obtain ⟨r, rfl, hc⟩ := hpre x (List.mem_cons_self x xs)
      have ih2 := ih (fun y hy => hpre y (List.mem_cons_of_mem _ hy))
      simp only [List.cons_append, getdatetimeLoop, if_pos hc]
      rw [List.append_eq, ih2]

/-- A write-loop iteration that retries: a failing `I2C_TRANSFER` after any
run of rollover-retried transactions propagates the error. -/
theorem settimeLoop_err (wsec : Nat) (pre : List SetXfer) (e : Int) (rest : List SetXfer)
    (hpre : ∀ x ∈ pre, ∃ s, x = SetXfer.ok s ∧
        (wsec &&& PCF85263_RTC_SECONDS_MASK) > (s &&& PCF85263_RTC_SECONDS_MASK)) :
    settimeLoop wsec (pre ++ SetXfer.err e :: rest) = some (Except.error e) := by
  induction pre with
  | nil => rfl
  | cons x xs ih =>
      obtain ⟨s, rfl, hc⟩ := hpre x (List.mem_cons_self x xs)
      have ih2 := ih (fun y hy => hpre y (List.mem_cons_of_mem _ hy))
      simp only [List.cons_append, settimeLoop, if_pos hc]
      rw [List.append_eq, ih2]

/-- C4: with the session enabled, a failing bus transaction makes GetTime
and SetTime return that same negative status immediately: whatever
outcomes `rest` the transport would have supplied afterwards, they are not
consumed (the result does not depend on them), the only transactions before
the failure are rollover retries, and GetTime leaves the caller's
broken-down-time structure `tp` exactly as it was. -/
theorem C4_error_propagation :
    (∀ (h : Bool) (tp : Tm) (pre : List RdXfer) (e : Int) (rest : List RdXfer),
       e < 0 →
       (∀ x ∈ pre, ∃ r, x = RdXfer.ok r ∧
           (r.b0 &&& PCF85263_RTC_SECONDS_MASK) > (r.sec &&& PCF85263_RTC_SECONDS_MASK)) →
       up_rtc_getdatetime true h (pre ++ RdXfer.err e :: rest) tp = some (e, tp)) ∧
    (∀ (h : Bool) (ts : Timespec) (pre : List SetXfer) (e : Int) (rest : List SetXfer),
       e < 0 →
       (∀ x ∈ pre, ∃ s, x = SetXfer.ok s ∧
           ((mkWriteImage h (gmtimeModel (roundTime ts))).getD 2 0 &&& PCF85263_RTC_SECONDS_MASK) >
             (s &&& PCF85263_RTC_SECONDS_MASK)) →
       up_rtc_settime true h (pre ++ SetXfer.err e :: rest) ts = some e) := by
  constructor
  · intro h tp pre e rest _ hpre
    simp only [up_rtc_getdatetime, Bool.not_true, Bool.false_eq_true, if_false,
      getdatetimeLoop_err pre e rest hpre]
  · intro h ts pre e rest _ hpre
    simp only [up_rtc_settime, Bool.not_true, Bool.false_eq_true, if_false,
      settimeLoop_err _ pre e rest hpre]

/-- Witness for C4: a transport failing with -5 on its first transaction. -/
theorem C4_error_propagation_witness :
    ((-5 : Int) < 0 ∧
     up_rtc_getdatetime true true ([] ++ RdXfer.err (-5) :: []) baseTm = some (-5, baseTm)) ∧
    up_rtc_settime true true ([] ++ SetXfer.err (-5) :: []) ⟨0, 0⟩ = some (-5) :=
  ⟨⟨by decide,
    C4_error_propagation.1 true baseTm [] (-5) [] (by decide) (by intro x hx; cases hx)⟩,
   C4_error_propagation.2 true ⟨0, 0⟩ [] (-5) [] (by decide) (by intro x hx; cases hx)⟩

/-- C7: the write-and-verify cycle of SetTime is repeated exactly when the
masked written BCD seconds value exceeds the masked seconds value read
back; when the first transaction succeeds with written seconds not greater
than the read-back seconds, SetTime returns success (0). -/
theorem C7_write_verify :
    (∀ (wsec s : Nat) (rest : List SetXfer),
       settimeLoop wsec (SetXfer.ok s :: rest) =
         if (wsec &&& PCF85263_RTC_SECONDS_MASK) > (s &&& PCF85263_RTC_SECONDS_MASK) then
           match settimeLoop wsec rest with
           | none => none
           | some (Except.error e) => some (Except.error e)
           | some (Except.ok n) => some (Except.ok (n + 1))
         else
           some (Except.ok 1)) ∧
    (∀ (h : Bool) (ts : Timespec) (s : Nat) (rest : List SetXfer),
       ((mkWriteImage h (gmtimeModel (roundTime ts))).getD 2 0 &&& PCF85263_RTC_SECONDS_MASK) ≤
         (s &&& PCF85263_RTC_SECONDS_MASK) →
       up_rtc_settime true h (SetXfer.ok s :: rest) ts = some 0) := by
  constructor
  · intro wsec s rest
    rfl
  · intro h ts s rest hle
    simp only [up_rtc_settime, Bool.not_true, Bool.false_eq_true, if_false, settimeLoop,
      if_neg (Nat.not_lt.mpr hle)]

/-- Witness for C7: setting the epoch time against a transport reading
back seconds 0. -/
theorem C7_write_verify_witness :
    (((mkWriteImage true (gmtimeModel (roundTime ⟨0, 0⟩))).getD 2 0 &&&
        PCF85263_RTC_SECONDS_MASK) ≤ (0 &&& PCF85263_RTC_SECONDS_MASK)) ∧
    up_rtc_settime true true [SetXfer.ok 0] ⟨0, 0⟩ = some 0 :=
  ⟨by decide, C7_write_verify.2 true ⟨0, 0⟩ 0 [] (by decide)⟩

/-- Minutes mask `0x7f` is transparent on encoded values `< 60`. -/
theorem bcd_mask_min (n : Nat) (h : n < 60) :
    rtc_bcd2bin (rtc_bin2bcd (n : Int) &&& PCF85263_RTC_MINUTES_MASK) = (n : Int) := by
  revert n h
  decide

/-- Hours mask `0x3f` is transparent on encoded values `< 24`. -/
theorem bcd_mask_hours (n : Nat) (h : n < 24) :
    rtc_bcd2bin (rtc_bin2bcd (n : Int) &&& PCF85263_RTC_HOURS24_MASK) = (n : Int) := by
  revert n h
  decide

/-- Concrete consistent read response whose raw weekday byte `0x10` has a
bit set outside the weekday value bits. -/
def wdayResp : RdResp :=
  { b0 := 0x00, b1 := 0x00, b2 := 0x00, b3 := 0x01, b4 := 0x10, b5 := 0x01, b6 := 0x00
    sec := 0x00 }

/-- C8 counterexample: on the raw weekday byte 0x10, GetTime decodes the
byte first and masks after (yielding weekday 2), which differs from
masking the raw byte before BCD-decoding it (which would yield 0); so the
claim that every field, the day-of-week included, is masked before
decoding is false. -/
theorem C8_mask_order_counterexample :
    up_rtc_getdatetime true true [RdXfer.ok wdayResp] baseTm =
      some (0, decodeTm true baseTm wdayResp) ∧
    (decodeTm true baseTm wdayResp).tm_wday = 2 ∧
    specWdayDecode wdayResp.b4 = 0 ∧
    (decodeTm true baseTm wdayResp).tm_wday ≠ specWdayDecode wdayResp.b4 :=
  ⟨rfl, by decide, by decide, by decide⟩

/-- C8 (amended): with the session enabled and a consistent first
response, every calendar field except the day-of-week and the year is
obtained by masking the raw register byte before BCD-decoding it; the
day-of-week byte is BCD-decoded first and masked after; the year byte is
BCD-decoded without any masking; the decoded month is rebased by
subtracting 1 and the decoded year by adding the 1968 reference offset 68. -/
theorem C8_field_decoding_amended (r : RdResp) (h : Bool) (tp : Tm) (rest : List RdXfer)
    (hc : r.b0 &&& PCF85263_RTC_SECONDS_MASK ≤ r.sec &&& PCF85263_RTC_SECONDS_MASK) :
    up_rtc_getdatetime true h (RdXfer.ok r :: rest) tp =
      some (0,
        { tm_sec := rtc_bcd2bin (r.b0 &&& PCF85263_RTC_SECONDS_MASK)
          tm_min := rtc_bcd2bin (r.b1 &&& PCF85263_RTC_MINUTES_MASK)
          tm_hour := rtc_bcd2bin (r.b2 &&& PCF85263_RTC_HOURS24_MASK)
          tm_mday := rtc_bcd2bin (r.b3 &&& PCF85263_RTC_DAYS_MASK)
          tm_wday := if h then Int.land (rtc_bcd2bin r.b4) (PCF85263_RTC_WEEKDAYS_MASK : Nat)
                     else tp.tm_wday
          tm_mon := rtc_bcd2bin (r.b5 &&& PCF85263_RTC_MONTHS_MASK) - 1
          tm_year := rtc_bcd2bin r.b6 + 68 }) := by
  simp only [up_rtc_getdatetime, Bool.not_true, Bool.false_eq_true, if_false, getdatetimeLoop,
    if_neg (Nat.not_lt.mpr hc)]
  rfl

/-- Witness for the amended C8 at the concrete response `wdayResp`. -/
theorem C8_field_decoding_amended_witness :
    (wdayResp.b0 &&& PCF85263_RTC_SECONDS_MASK ≤ wdayResp.sec &&& PCF85263_RTC_SECONDS_MASK) ∧
    up_rtc_getdatetime true true [RdXfer.ok wdayResp] baseTm =
      some (0,
        { tm_sec := rtc_bcd2bin (wdayResp.b0 &&& PCF85263_RTC_SECONDS_MASK)
          tm_min := rtc_bcd2bin (wdayResp.b1 &&& PCF85263_RTC_MINUTES_MASK)
          tm_hour := rtc_bcd2bin (wdayResp.b2 &&& PCF85263_RTC_HOURS24_MASK)
          tm_mday := rtc_bcd2bin (wdayResp.b3 &&& PCF85263_RTC_DAYS_MASK)
          tm_wday := if true then Int.land (rtc_bcd2bin wdayResp.b4) (PCF85263_RTC_WEEKDAYS_MASK : Nat)
                     else baseTm.tm_wday
          tm_mon := rtc_bcd2bin (wdayResp.b5 &&& PCF85263_RTC_MONTHS_MASK) - 1
          tm_year := rtc_bcd2bin wdayResp.b6 + 68 }) :=
  ⟨by decide, C8_field_decoding_amended wdayResp true baseTm [] (by decide)⟩

/-- C9 counterexample: at seconds 5, the second byte of the transmitted
9-byte buffer is the hundredths-clearing 0, not the BCD encoding of the
seconds; the claim's layout (byte 0 equal to 0 immediately followed by the
BCD seconds) does not match the buffer the driver builds. -/
theorem C9_write_image_counterexample :
    (mkWriteImage true (gmtimeModel (roundTime ⟨5, 0⟩))).length = 9 ∧
    rtc_bin2bcd (gmtimeModel (roundTime ⟨5, 0⟩)).tm_sec = 5 ∧
    (mkWriteImage true (gmtimeModel (roundTime ⟨5, 0⟩))).getD 1 0 = 0 ∧
    (mkWriteImage true (gmtimeModel (roundTime ⟨5, 0⟩))).getD 1 0 ≠
      rtc_bin2bcd (gmtimeModel (roundTime ⟨5, 0⟩)).tm_sec :=
  ⟨rfl, by decide, by decide, by decide⟩

/-- C9 (amended): the transmitted buffer is 9 bytes: byte 0 is the
register address of the hundredths-of-seconds register (which is 0),
byte 1 equals 0 and clears the sub-second residue, and bytes 2 through 8
are in order the BCD encodings of seconds, minutes, hours, day-of-month,
day-of-week (0 when the weekday representation is unavailable), month+1,
and year-since-1968 of the rounded broken-down time. -/
theorem C9_write_image_amended (h : Bool) (ts : Timespec) :
    mkWriteImage h (gmtimeModel (roundTime ts)) =
      [PCF85263_RTC_100TH_SECONDS, 0,
       rtc_bin2bcd (gmtimeModel (roundTime ts)).tm_sec,
       rtc_bin2bcd (gmtimeModel (roundTime ts)).tm_min,
       rtc_bin2bcd (gmtimeModel (roundTime ts)).tm_hour,
       rtc_bin2bcd (gmtimeModel (roundTime ts)).tm_mday,
       if h then rtc_bin2bcd (gmtimeModel (roundTime ts)).tm_wday else 0,
       rtc_bin2bcd ((gmtimeModel (roundTime ts)).tm_mon + 1),
       rtc_bin2bcd ((gmtimeModel (roundTime ts)).tm_year - 68)] ∧
    PCF85263_RTC_100TH_SECONDS = 0 ∧
    (mkWriteImage h (gmtimeModel (roundTime ts))).length = 9 :=
  ⟨rfl, rfl, rfl⟩

/-- Decoding the echo of the transmitted write image recovers the
broken-down time that was written (weekday from the caller's buffer when
the weekday representation is unavailable), whenever the written fields
lie in the calendar ranges representable by the chip registers. -/
theorem decode_echo (h : Bool) (tp ntm : Tm)
    (hsec0 : 0 ≤ ntm.tm_sec) (hsec1 : ntm.tm_sec ≤ 59)
    (hmin0 : 0 ≤ ntm.tm_min) (hmin1 : ntm.tm_min ≤ 59)
    (hhour0 : 0 ≤ ntm.tm_hour) (hhour1 : ntm.tm_hour ≤ 23)
    (hmday0 : 1 ≤ ntm.tm_mday) (hmday1 : ntm.tm_mday ≤ 31)
    (hwday0 : 0 ≤ ntm.tm_wday) (hwday1 : ntm.tm_wday ≤ 6)
    (hmon0 : 0 ≤ ntm.tm_mon) (hmon1 : ntm.tm_mon ≤ 11)
    (hyear0 : 68 ≤ ntm.tm_year) (hyear1 : ntm.tm_year ≤ 167) :
    decodeTm h tp (echoRead (mkWriteImage h ntm)) =
      { ntm with tm_wday := if h then ntm.tm_wday else tp.tm_wday } := by
  have he : echoRead (mkWriteImage h ntm) =
      { b0 := rtc_bin2bcd ntm.tm_sec
        b1 := rtc_bin2bcd ntm.tm_min
        b2 := rtc_bin2bcd ntm.tm_hour
        b3 := rtc_bin2bcd ntm.tm_mday
        b4 := if h then rtc_bin2bcd ntm.tm_wday else 0
        b5 := rtc_bin2bcd (ntm.tm_mon + 1)
        b6 := rtc_bin2bcd (ntm.tm_year - 68)
        sec := rtc_bin2bcd ntm.tm_sec } := rfl
  have hs := bcd_mask_sec ntm.tm_sec.toNat (by omega)
  rw [Int.toNat_of_nonneg hsec0] at hs
  have hm := bcd_mask_min ntm.tm_min.toNat (by omega)
  rw [Int.toNat_of_nonneg hmin0] at hm
  have hh := bcd_mask_hours ntm.tm_hour.toNat (by omega)
  rw [Int.toNat_of_nonneg hhour0] at hh
  have hd := bcd_mask_days ntm.tm_mday.toNat (by omega)
  rw [Int.toNat_of_nonneg (by omega : (0 : Int) ≤ ntm.tm_mday)] at hd
  have hw := bcd_wday_path ntm.tm_wday.toNat (by omega)
  rw [Int.toNat_of_nonneg hwday0] at hw
  have hmo := bcd_mask_months (ntm.tm_mon + 1).toNat (by omega)
  rw [Int.toNat_of_nonneg (by omega : (0 : Int) ≤ ntm.tm_mon + 1)] at hmo
  have hy := bcd_decode_encode_nat (ntm.tm_year - 68).toNat (by omega)
  rw [Int.toNat_of_nonneg (by omega : (0 : Int) ≤ ntm.tm_year - 68)] at hy
  rw [he]
  cases h with
  | false =>
      simp only [decodeTm, Bool.false_eq_true, if_false, Tm.mk.injEq]
      refine ⟨hs, hm, hh, hd, ?_, ?_, trivial⟩
      · rw [hmo]; ring
      · rw [hy]; ring
  | true =>
      simp only [decodeTm, if_true, Tm.mk.injEq]
      refine ⟨hs, hm, hh, hd, ?_, ?_, hw⟩
      · rw [hmo]; ring
      · rw [hy]; ring

set_option maxRecDepth 16384 in
/-- C3 counterexample: at the timespec with tv_sec = -63158401 (one second
before 1968-01-01, broken-down year offset 67) the year field written is
67 - 68 = -1, which the encoder wraps to the byte 0xFF; reading it back
through the echoing transport decodes to year offset 233, so the round
trip does not return the rounded broken-down time, refuting the claim for
arbitrary timespecs. -/
theorem C3_roundtrip_counterexample :
    up_rtc_settime true true
        [SetXfer.ok ((mkWriteImage true (gmtimeModel (roundTime ⟨-63158401, 0⟩))).getD 2 0)]
        ⟨-63158401, 0⟩ = some 0 ∧
    up_rtc_getdatetime true true
        [RdXfer.ok (echoRead (mkWriteImage true (gmtimeModel (roundTime ⟨-63158401, 0⟩))))]
        baseTm =
      some (0, { tm_sec := 59, tm_min := 59, tm_hour := 23, tm_mday := 31, tm_mon := 11
                 tm_year := 233, tm_wday := 0 }) ∧
    gmtimeModel (roundTime ⟨-63158401, 0⟩) =
      { tm_sec := 59, tm_min := 59, tm_hour := 23, tm_mday := 31, tm_mon := 11
        tm_year := 67, tm_wday := 0 } ∧
    up_rtc_getdatetime true true
        [RdXfer.ok (echoRead (mkWriteImage true (gmtimeModel (roundTime ⟨-63158401, 0⟩))))]
        baseTm ≠
      some (0, gmtimeModel (roundTime ⟨-63158401, 0⟩)) := by
  have h2 : up_rtc_getdatetime true true
      [RdXfer.ok (echoRead (mkWriteImage true (gmtimeModel (roundTime ⟨-63158401, 0⟩))))]
      baseTm =
      some (0, { tm_sec := 59, tm_min := 59, tm_hour := 23, tm_mday := 31, tm_mon := 11
                 tm_year := 233, tm_wday := 0 }) := rfl
  have h3 : gmtimeModel (roundTime ⟨-63158401, 0⟩) =
      { tm_sec := 59, tm_min := 59, tm_hour := 23, tm_mday := 31, tm_mon := 11
        tm_year := 67, tm_wday := 0 } := rfl
  refine ⟨rfl, h2, h3, ?_⟩
  rw [h2, h3]
  decide

/-- C3 (amended): SetTime followed by GetTime on a transport that echoes
back exactly the written register bytes yields the broken-down time of the
timespec rounded to the nearest whole second (month 0-based, year offset
from 1900, weekday from the caller's buffer when the weekday
representation is unavailable), provided the rounded time's broken-down
fields lie in the chip-representable calendar ranges (in particular a year
between 1968 and 2067, the range of the two-BCD-digit year register). -/
theorem C3_roundtrip_amended (ts : Timespec) (h : Bool) (tp : Tm)
    (hsec0 : 0 ≤ (gmtimeModel (roundTime ts)).tm_sec)
    (hsec1 : (gmtimeModel (roundTime ts)).tm_sec ≤ 59)
    (hmin0 : 0 ≤ (gmtimeModel (roundTime ts)).tm_min)
    (hmin1 : (gmtimeModel (roundTime ts)).tm_min ≤ 59)
    (hhour0 : 0 ≤ (gmtimeModel (roundTime ts)).tm_hour)
    (hhour1 : (gmtimeModel (roundTime ts)).tm_hour ≤ 23)
    (hmday0 : 1 ≤ (gmtimeModel (roundTime ts)).tm_mday)
    (hmday1 : (gmtimeModel (roundTime ts)).tm_mday ≤ 31)
    (hwday0 : 0 ≤ (gmtimeModel (roundTime ts)).tm_wday)
    (hwday1 : (gmtimeModel (roundTime ts)).tm_wday ≤ 6)
    (hmon0 : 0 ≤ (gmtimeModel (roundTime ts)).tm_mon)
    (hmon1 : (gmtimeModel (roundTime ts)).tm_mon ≤ 11)
    (hyear0 : 68 ≤ (gmtimeModel (roundTime ts)).tm_year)
    (hyear1 : (gmtimeModel (roundTime ts)).tm_year ≤ 167) :
    up_rtc_settime true h
        [SetXfer.ok ((mkWriteImage h (gmtimeModel (roundTime ts))).getD 2 0)] ts = some 0 ∧
    up_rtc_getdatetime true h
        [RdXfer.ok (echoRead (mkWriteImage h (gmtimeModel (roundTime ts))))] tp =
      some (0, { gmtimeModel (roundTime ts) with
                 tm_wday := if h then (gmtimeModel (roundTime ts)).tm_wday else tp.tm_wday }) := by
  constructor
  · simp only [up_rtc_settime, Bool.not_true, Bool.false_eq_true, if_false, settimeLoop,
      gt_iff_lt, lt_self_iff_false, if_false]
  · have he : (echoRead (mkWriteImage h (gmtimeModel (roundTime ts)))).b0 =
        (echoRead (mkWriteImage h (gmtimeModel (roundTime ts)))).sec := rfl
    simp only [up_rtc_getdatetime, Bool.not_true, Bool.false_eq_true, if_false, getdatetimeLoop]
    rw [he]
    simp only [gt_iff_lt, lt_self_iff_false, if_false]
    rw [decode_echo h tp (gmtimeModel (roundTime ts)) hsec0 hsec1 hmin0 hmin1 hhour0 hhour1
      hmday0 hmday1 hwday0 hwday1 hmon0 hmon1 hyear0 hyear1]

set_option maxRecDepth 16384 in
/-- Witness for the amended C3: 86399.6 s past the epoch rounds up to
86400 s, i.e. 1970-01-02 00:00:00 (a Friday), and round-trips through the
echoing transport. -/
theorem C3_roundtrip_amended_witness :
    (0 ≤ (gmtimeModel (roundTime ⟨86399, 600000000⟩)).tm_sec ∧
     (gmtimeModel (roundTime ⟨86399, 600000000⟩)).tm_year ≤ 167) ∧
    up_rtc_settime true true
        [SetXfer.ok ((mkWriteImage true (gmtimeModel (roundTime ⟨86399, 600000000⟩))).getD 2 0)]
        ⟨86399, 600000000⟩ = some 0 ∧
    up_rtc_getdatetime true true
        [RdXfer.ok (echoRead (mkWriteImage true (gmtimeModel (roundTime ⟨86399, 600000000⟩))))]
        baseTm =
      some (0, { gmtimeModel (roundTime ⟨86399, 600000000⟩) with
                 tm_wday := if true then (gmtimeModel (roundTime ⟨86399, 600000000⟩)).tm_wday
                            else baseTm.tm_wday }) :=
  ⟨⟨by decide, by decide⟩,
   C3_roundtrip_amended ⟨86399, 600000000⟩ true baseTm (by decide) (by decide) (by decide)
     (by decide) (by decide) (by decide) (by decide) (by decide) (by decide) (by decide)
     (by decide) (by decide) (by decide) (by decide)⟩
